import Mathlib

/-!
Verification of the tga-appstle-mcp server core against its specification.

The development shallowly embeds the parts of the TypeScript source that the
properties below speak about:

* the upstream HTTP client `AppstleClient` (appstle.ts): failure
  classification, retry loop and exponential backoff;
* the response normalizer (mapping.ts): `mapBillingAttempt`,
  `mapSkipResponse`, `toPastOrders`, `toSubscriptionsSummary`,
  `parseGidTail`;
* the validated tool pipeline (tools.ts): `createTool` and the
  unskip-order success path;
* the JSON-RPC dispatcher (transport.ts): `processJsonRpcRequest`
  and `handleToolsCall`.

Machine numbers are modelled with `Int`/`Nat` (ids, status codes) and `ℚ`
(millisecond delays, `Math.random()`); JavaScript `undefined`/`null` become
`Option`; thrown exceptions become `Except`.
-/

/- ===================== Upstream client (appstle.ts) ===================== -/

/-- Retry configuration record (`RetryConfig` in appstle.ts). -/
structure RetryConfig where
  maxAttempts : Nat
  baseDelayMs : ℚ
  maxDelayMs : ℚ

/-- Retry configuration installed by the `AppstleClient` constructor:
3 attempts, 1000 ms base delay, 10000 ms cap. -/
def defaultRetryConfig : RetryConfig :=
  { maxAttempts := 3, baseDelayMs := 1000, maxDelayMs := 10000 }

/-- Backoff delay computation (`calculateBackoffDelay`).  `rand` models the
value returned by `Math.random()`, which lies in `[0, 1)`. -/
def calculateBackoffDelay (cfg : RetryConfig) (rand : ℚ) (attempt : Nat) : ℚ :=
  let exponentialDelay := cfg.baseDelayMs * 2 ^ attempt
  let jitter := rand * (1 / 10) * exponentialDelay
  min (exponentialDelay + jitter) cfg.maxDelayMs

/-- Retry predicate (`shouldRetry`): retry on 429 (rate limit) and 5xx. -/
def shouldRetry (statusCode : Nat) : Bool :=
  statusCode == 429 || (500 ≤ statusCode && statusCode < 600)

/-- Canonical error title assigned by `mapHttpError` to a failed status. -/
def mapHttpErrorTitle (statusCode : Nat) : String :=
  if statusCode == 400 then "Bad Request"
  else if statusCode == 401 then "Unauthorized"
  else if statusCode == 403 then "Forbidden"
  else if statusCode == 404 then "Not Found"
  else if statusCode == 409 then "Conflict"
  else if statusCode == 429 then "Rate Limited"
  else if statusCode == 500 then "Internal Server Error"
  else if statusCode == 502 || statusCode == 503 || statusCode == 504 then
    "Service Unavailable"
  else if 400 ≤ statusCode && statusCode < 500 then "Client Error"
  else if 500 ≤ statusCode then "Server Error"
  else "API Error"

/-- What one iteration of the `makeRequest` retry loop observes for its
attempt: a non-2xx HTTP response with a status code, a 2xx response whose
body parses as JSON, a 2xx response whose body fails `JSON.parse`, or a
thrown fetch/network error. -/
inductive AttemptOutcome where
  | httpError (status : Nat)
  | okParsable
  | okUnparsable
  | networkFailure
deriving DecidableEq, Repr

/-- Result of `makeRequest`: a parsed value, or a thrown `AppstleError`
carrying its classification (status code and canonical title). -/
inductive RequestResult where
  | success
  | failure (statusCode : Nat) (title : String)
deriving DecidableEq, Repr

/-- The `for (let attempt = 0; attempt < maxAttempts; attempt++)` loop of
`makeRequest`.  `responses` gives the outcome of each attempt; the fuel
argument equals `maxAttempts - attempt`, so running out of fuel is exactly
the loop exiting, which the source ends with the
`Max retry attempts exhausted` internal error.  The second component of the
result is the total number of attempts made. -/
def makeRequestLoop (responses : Nat → AttemptOutcome) (maxAttempts : Nat) :
    Nat → Nat → RequestResult × Nat
  | 0, attempt => (.failure 500 "Internal Error", attempt)
  | fuel + 1, attempt =>
    match responses attempt with
    | .httpError status =>
      if shouldRetry status && decide (attempt < maxAttempts - 1) then
        makeRequestLoop responses maxAttempts fuel (attempt + 1)
      else
        (.failure status (mapHttpErrorTitle status), attempt + 1)
    | .okParsable => (.success, attempt + 1)
    | .okUnparsable => (.failure 500 "Parse Error", attempt + 1)
    | .networkFailure =>
      if decide (attempt < maxAttempts - 1) then
        makeRequestLoop responses maxAttempts fuel (attempt + 1)
      else
        (.failure 500 "Network Error", attempt + 1)

/-- `makeRequest` with the client's default retry configuration. -/
def makeRequest (responses : Nat → AttemptOutcome) : RequestResult × Nat :=
  makeRequestLoop responses defaultRetryConfig.maxAttempts
    defaultRetryConfig.maxAttempts 0

theorem shouldRetry_iff (s : Nat) :
    shouldRetry s = true ↔ s = 429 ∨ (500 ≤ s ∧ s < 600) := by
  simp [shouldRetry]

theorem makeRequestLoop_attempts_le (responses : Nat → AttemptOutcome)
    (maxAttempts fuel attempt : Nat) :
    (makeRequestLoop responses maxAttempts fuel attempt).2 ≤ attempt + fuel := by
  induction fuel generalizing attempt with
  | zero => simp [makeRequestLoop]
  | succ n ih =>
    cases h : responses attempt with
    | httpError status =>
      simp only [makeRequestLoop, h]
      split
      · have := ih (attempt + 1)
        omega
      · change attempt + 1 ≤ attempt + (n + 1)
        omega
    | okParsable =>
      simp only [makeRequestLoop, h]
      change attempt + 1 ≤ attempt + (n + 1)
      omega
    | okUnparsable =>
      simp only [makeRequestLoop, h]
      change attempt + 1 ≤ attempt + (n + 1)
      omega
    | networkFailure =>
      simp only [makeRequestLoop, h]
      split
      · have := ih (attempt + 1)
        omega
      · change attempt + 1 ≤ attempt + (n + 1)
        omega

/-- Claim C1: when every attempt of an outbound call fails with the same
non-2xx HTTP status `s`, the upstream client makes at most 3 total attempts
(the initial one plus up to 2 retries) before raising the classified
failure if `s` is 429 or any 5xx, and exactly one attempt for every other
non-2xx status. -/
theorem retry_budget (s : Nat) (responses : Nat → AttemptOutcome)
    (hall : ∀ n, responses n = .httpError s) :
    ((s = 429 ∨ (500 ≤ s ∧ s < 600)) →
      (makeRequest responses).2 ≤ 3 ∧
      (makeRequest responses).1 = .failure s (mapHttpErrorTitle s)) ∧
    (¬(s = 429 ∨ (500 ≤ s ∧ s < 600)) →
      (makeRequest responses).2 = 1 ∧
      (makeRequest responses).1 = .failure s (mapHttpErrorTitle s)) := by
  constructor
  · intro hs
    have hr : shouldRetry s = true := (shouldRetry_iff s).mpr hs
    have hcomp : makeRequest responses = (.failure s (mapHttpErrorTitle s), 3) := by
      simp [makeRequest, defaultRetryConfig, makeRequestLoop, hall, hr]
    rw [hcomp]
    exact ⟨by omega, rfl⟩
  · intro hs
    have hr : shouldRetry s = false := by
      cases h : shouldRetry s
      · rfl
      · exact absurd ((shouldRetry_iff s).mp h) hs
    have hcomp : makeRequest responses = (.failure s (mapHttpErrorTitle s), 1) := by
      simp [makeRequest, defaultRetryConfig, makeRequestLoop, hall, hr]
    rw [hcomp]
    exact ⟨rfl, rfl⟩

theorem retry_budget_witness :
    (makeRequest (fun _ => .httpError 503)).2 ≤ 3 ∧
    (makeRequest (fun _ => .httpError 503)).1 =
      .failure 503 (mapHttpErrorTitle 503) :=
  (retry_budget 503 (fun _ => .httpError 503) (fun _ => rfl)).1
    (Or.inr (by omega))

/-- Claim C8: a 2xx response whose body fails to parse as JSON makes the
call raise the fatal Parse Error classification (status 500, title
`Parse Error`) after exactly one attempt; it is never retried. -/
theorem parse_error_never_retried (responses : Nat → AttemptOutcome)
    (h0 : responses 0 = .okUnparsable) :
    makeRequest responses = (.failure 500 "Parse Error", 1) := by
  simp [makeRequest, defaultRetryConfig, makeRequestLoop, h0]

theorem parse_error_never_retried_witness :
    makeRequest (fun _ => .okUnparsable) = (.failure 500 "Parse Error", 1) :=
  parse_error_never_retried (fun _ => .okUnparsable) rfl

/-- Claim C4: with the default configuration (base 1000 ms, cap 10000 ms),
for every attempt index `n` and every value `r` that `Math.random()` can
produce, the backoff delay lies within `[base * 2 ^ n, base * 2 ^ n * 1.1]`
clamped to the cap, and the clamped lower bound is non-decreasing in `n`. -/
theorem backoff_delay_bounds (n : Nat) (r : ℚ) (h0 : 0 ≤ r) (h1 : r < 1) :
    min ((1000 : ℚ) * 2 ^ n) 10000 ≤ calculateBackoffDelay defaultRetryConfig r n ∧
    calculateBackoffDelay defaultRetryConfig r n ≤
      min ((1000 : ℚ) * 2 ^ n * (11 / 10)) 10000 ∧
    min ((1000 : ℚ) * 2 ^ n) 10000 ≤ min ((1000 : ℚ) * 2 ^ (n + 1)) 10000 := by
  have hp : (0 : ℚ) < 2 ^ n := by positivity
  have he : (0 : ℚ) < 1000 * 2 ^ n := by positivity
  have hj0 : 0 ≤ r * (1 / 10) * (1000 * 2 ^ n) := by positivity
  have hj1 : 1000 * 2 ^ n + r * (1 / 10) * (1000 * 2 ^ n) ≤
      1000 * 2 ^ n * (11 / 10) := by nlinarith
  refine ⟨?_, ?_, ?_⟩
  · simp only [calculateBackoffDelay, defaultRetryConfig]
    exact min_le_min (by linarith) le_rfl
  · simp only [calculateBackoffDelay, defaultRetryConfig]
    exact min_le_min hj1 le_rfl
  · have h2 : (2 : ℚ) ^ n ≤ 2 ^ (n + 1) := by
      have := pow_le_pow_right₀ (by norm_num : (1 : ℚ) ≤ 2) (Nat.le_succ n)
      exact this
    exact min_le_min (by nlinarith) le_rfl

theorem backoff_delay_bounds_witness :
    min ((1000 : ℚ) * 2 ^ 2) 10000 ≤
      calculateBackoffDelay defaultRetryConfig (1 / 2) 2 ∧
    calculateBackoffDelay defaultRetryConfig (1 / 2) 2 ≤
      min ((1000 : ℚ) * 2 ^ 2 * (11 / 10)) 10000 ∧
    min ((1000 : ℚ) * 2 ^ 2) 10000 ≤ min ((1000 : ℚ) * 2 ^ 3) 10000 :=
  backoff_delay_bounds 2 (1 / 2) (by norm_num) (by norm_num)

/- =================== Response normalizer (mapping.ts) =================== -/

/-- JavaScript `s || undefined` on an optional string: `null`, `undefined`
and the empty string are falsy. -/
def jsStrOrUndefined : Option String → Option String
  | some s => if s = "" then none else some s
  | none => none

/-- JavaScript `n || undefined` on an optional number: 0 is falsy. -/
def jsIntOrUndefined : Option Int → Option Int
  | some n => if n = 0 then none else some n
  | none => none

/-- JavaScript `a || b` where `a` is an optional string and `b` a string. -/
def jsStrOr (a : Option String) (b : String) : String :=
  match a with
  | some s => if s = "" then b else s
  | none => b

/-- JavaScript `v || d` where `v` is an optional number and `d` a number. -/
def jsIntOr (v : Option Int) (d : Int) : Int :=
  match v with
  | some n => if n = 0 then d else n
  | none => d

/-- One element of the raw `variantList` of an upstream billing attempt. -/
structure RawVariant where
  title : Option String
  quantity : Option Int
  productTitle : Option String
  variantTitle : Option String
deriving DecidableEq, Repr

/-- Raw upstream billing attempt, with the canonical `id` present (the
argument type of `mapBillingAttempt`). -/
structure RawBillingAttempt where
  id : Int
  billingAttemptId : Option String
  orderId : Option Int
  orderName : Option String
  billingDate : String
  status : String
  variantList : Option (List RawVariant)
deriving DecidableEq, Repr

/-- Normalized order line item. -/
structure OrderItem where
  title : String
  quantity : Int
deriving DecidableEq, Repr

/-- Normalized billing attempt (`UpcomingOrder` / `PastOrder` in
schemas.ts).  `items = none` models the record built without an `items`
key. -/
structure MappedOrder where
  order_id : Int
  billing_attempt_ref : Option String
  shopify_order_id : Option Int
  order_name : Option String
  billing_date : String
  status : String
  items : Option (List OrderItem)
deriving DecidableEq, Repr

/-- `mapBillingAttempt`: the exposed `order_id` is the canonical upstream
`id`; `billingAttemptId` is only surfaced as the secondary
`billing_attempt_ref`. -/
def mapBillingAttempt (attempt : RawBillingAttempt) : MappedOrder :=
  let items : List OrderItem :=
    match attempt.variantList with
    | some vs =>
      if vs.length ≠ 0 then
        vs.map (fun variant =>
          { title := jsStrOr variant.variantTitle
              (jsStrOr variant.title (jsStrOr variant.productTitle "Item")),
            quantity := jsIntOr variant.quantity 1 })
      else []
    | none => []
  { order_id := attempt.id,
    billing_attempt_ref := jsStrOrUndefined attempt.billingAttemptId,
    shopify_order_id := jsIntOrUndefined attempt.orderId,
    order_name := jsStrOrUndefined attempt.orderName,
    billing_date := attempt.billingDate,
    status := attempt.status,
    items := if items.length > 0 then some items else none }

/-- Raw upstream response of the skip/unskip endpoints. -/
structure RawSkipResponse where
  id : Int
  billingAttemptId : Option String
  orderId : Option Int
  orderName : Option String
  billingDate : String
  status : String
deriving DecidableEq, Repr

/-- Workflow guidance record (`NextStepGuidance` in schemas.ts). -/
structure NextStepGuidance where
  ask_customer : String
  show_options : Bool
  save_parameter : String
  next_tool : String
  condition : Option String
deriving DecidableEq, Repr

/-- Result shape of `mapSkipResponse`. -/
structure SkipResult where
  order_id : Int
  billing_attempt_ref : Option String
  shopify_order_id : Option Int
  order_name : Option String
  billing_date : String
  status : String
  message : String
  next_step_guidance : NextStepGuidance
deriving DecidableEq, Repr

/-- `mapSkipResponse`: normalizes a skip/unskip upstream response; the
exposed `order_id` is the canonical `appstle.id`. -/
def mapSkipResponse (appstle : RawSkipResponse) (isSkip : Bool := true) :
    SkipResult :=
  let next_step_guidance : NextStepGuidance :=
    { ask_customer :=
        if isSkip then
          "Your delivery has been successfully skipped. To restore it later, visit account.thegourmetanimal.com → Manage Subscription → select your subscription → See more details → History tab to unskip."
        else
          "Your delivery has been successfully restored.",
      show_options := false,
      save_parameter := "none",
      next_tool := "workflow_complete",
      condition := some "COMPLETE" }
  { order_id := appstle.id,
    billing_attempt_ref := jsStrOrUndefined appstle.billingAttemptId,
    shopify_order_id := jsIntOrUndefined appstle.orderId,
    order_name := jsStrOrUndefined appstle.orderName,
    billing_date := appstle.billingDate,
    status := appstle.status,
    message := if isSkip then "Order skipped" else "Order unskipped",
    next_step_guidance := next_step_guidance }

/-- A concrete upstream billing attempt whose canonical id is 7700 and
whose secondary `billingAttemptId` reference is absent. -/
def attempt7700 : RawBillingAttempt :=
  { id := 7700, billingAttemptId := none, orderId := none, orderName := none,
    billingDate := "2025-10-01T00:00:00Z", status := "QUEUED",
    variantList := none }

/-- Claim C2: both normalizers expose the canonical upstream `id` as the
identifier, never the secondary `billingAttemptId` reference; in
particular for canonical id 7700 with the reference absent, the exposed
identifier is 7700 (a total `Int`, never null) and the reference maps to
`none`. -/
theorem canonical_identifier_preferred :
    (∀ a : RawBillingAttempt, (mapBillingAttempt a).order_id = a.id) ∧
    (∀ (r : RawSkipResponse) (isSkip : Bool),
      (mapSkipResponse r isSkip).order_id = r.id) ∧
    (mapBillingAttempt attempt7700).order_id = 7700 ∧
    (mapBillingAttempt attempt7700).billing_attempt_ref = none := by
  exact ⟨fun a => rfl, fun r isSkip => rfl, rfl, rfl⟩

/-- Raw past/top order record as it actually arrives (typed `any` in the
source): the canonical `id` may be missing. -/
structure RawAttemptLoose where
  id : Option Int
  billingAttemptId : Option String
  orderId : Option Int
  orderName : Option String
  billingDate : String
  status : String
  variantList : Option (List RawVariant)
deriving DecidableEq, Repr

/-- View of a loose record once its `id` has passed the `!= null` filter
(the source casts; the default is unreachable behind the filter). -/
def RawAttemptLoose.strict (r : RawAttemptLoose) : RawBillingAttempt :=
  { id := r.id.getD 0, billingAttemptId := r.billingAttemptId,
    orderId := r.orderId, orderName := r.orderName,
    billingDate := r.billingDate, status := r.status,
    variantList := r.variantList }

/-- The two upstream shapes `toPastOrders` accepts: a bare JSON array, or
a paginated envelope with `content`, `totalElements`, `size`, `number`. -/
inductive PastOrdersUpstream where
  | bareArray (items : List RawAttemptLoose)
  | envelope (content : Option (List RawAttemptLoose))
      (totalElements : Option Int) (size : Option Int) (number : Option Int)
deriving DecidableEq, Repr

/-- Result shape of `toPastOrders`. -/
structure PastOrdersResult where
  past : List MappedOrder
  page : Int
  size : Int
  has_more : Bool
deriving DecidableEq, Repr

/-- `toPastOrders`: normalizes either upstream shape into one page-shaped
result; `has_more` is always reported `false`. -/
def toPastOrders (appstle : PastOrdersUpstream) : PastOrdersResult :=
  match appstle with
  | .bareArray items =>
    { past := (items.filter (fun a => a.id.isSome)).map
        (fun a => mapBillingAttempt a.strict),
      page := 0,
      size := (items.length : Int),
      has_more := false }
  | .envelope content _totalElements size number =>
    let content := content.getD []
    { past := (content.filter (fun a => a.id.isSome)).map
        (fun a => mapBillingAttempt a.strict),
      page := jsIntOr number 0,
      size := jsIntOr size (content.length : Int),
      has_more := false }

/-- Claim C7: a bare-array past-orders response of `n` records that all
carry a canonical id normalizes to page number 0, size `n`, a `past` list
of length `n`, and `has_more = false`. -/
theorem bare_array_past_orders (items : List RawAttemptLoose)
    (hids : ∀ r ∈ items, r.id.isSome = true) :
    (toPastOrders (.bareArray items)).page = 0 ∧
    (toPastOrders (.bareArray items)).size = (items.length : Int) ∧
    (toPastOrders (.bareArray items)).past.length = items.length ∧
    (toPastOrders (.bareArray items)).has_more = false := by
  refine ⟨rfl, rfl, ?_, rfl⟩
  simp only [toPastOrders, List.length_map]
  rw [List.filter_eq_self.mpr hids]

/-- A past-order record with a concrete canonical id, used as witness
data. -/
def pastRecord (i : Int) : RawAttemptLoose :=
  { id := some i, billingAttemptId := none, orderId := none,
    orderName := none, billingDate := "2025-09-01T00:00:00Z",
    status := "SUCCESS", variantList := none }

theorem bare_array_past_orders_witness :
    (toPastOrders (.bareArray [pastRecord 1, pastRecord 2, pastRecord 3])).page = 0 ∧
    (toPastOrders (.bareArray [pastRecord 1, pastRecord 2, pastRecord 3])).size = 3 ∧
    (toPastOrders (.bareArray [pastRecord 1, pastRecord 2, pastRecord 3])).past.length = 3 ∧
    (toPastOrders (.bareArray [pastRecord 1, pastRecord 2, pastRecord 3])).has_more = false :=
  bare_array_past_orders [pastRecord 1, pastRecord 2, pastRecord 3]
    (by decide)

/- ============== Subscriptions summary normalizer (mapping.ts) ============== -/

/-- Fold decimal digits into a natural number. -/
def digitsToNat (ds : List Char) : Nat :=
  ds.foldl (fun acc c => acc * 10 + (c.toNat - 48)) 0

/-- `parseGidTail` matches the regex pattern slash-digits-end against a
Shopify GID: one or more trailing digits immediately preceded by a slash.
`none` models the thrown `Invalid Shopify GID format` error. -/
def parseGidTail (gid : String) : Option Int :=
  let rev := gid.data.reverse
  let ds := rev.takeWhile Char.isDigit
  match ds, rev.drop ds.length with
  | [], _ => none
  | _ :: _, c :: _ =>
    if c = '/' then some ((digitsToNat ds.reverse : Nat) : Int) else none
  | _ :: _, [] => none

/-- One raw `customAttributes` entry of a subscription line. -/
structure CustomAttribute where
  key : String
  value : String
deriving DecidableEq, Repr

/-- One raw subscription line (`lines.edges[i].node`, wrappers elided). -/
structure LineNode where
  productTitle : Option String
  variantTitle : Option String
  quantity : Int
  customAttributes : Option (List CustomAttribute)
deriving DecidableEq, Repr

/-- Raw `deliveryPolicy` of a subscription contract. -/
structure DeliveryPolicy where
  interval : String
  intervalCount : Int
deriving DecidableEq, Repr

/-- One raw `subscriptionContracts.edges[i].node` (the edge/node wrappers
of the upstream GraphQL-style shape are elided; `originOrderName` models
`originOrder?.name`). -/
structure ContractNode where
  id : String
  status : String
  nextBillingDate : String
  createdAt : Option String
  deliveryPolicy : Option DeliveryPolicy
  lines : Option (List LineNode)
  originOrderName : Option String
deriving DecidableEq, Repr

/-- Raw `subscriptionContracts.pageInfo`. -/
structure SubsPageInfo where
  hasNextPage : Bool
  endCursor : Option String
deriving DecidableEq, Repr

/-- Raw upstream subscription-customer response. -/
structure SubscriptionCustomerResponse where
  edges : List ContractNode
  pageInfo : SubsPageInfo
deriving DecidableEq, Repr

/-- Normalized subscription record (`Subscription` in schemas.ts). -/
structure Subscription where
  subscription_contract_id : Int
  subscription_contract_gid : String
  status : String
  plan_name : String
  next_billing_date : String
  items_summary : Option String
  created_at : Option String
  can_skip_orders : Bool
  upcoming_orders_count : Int
  suggested_next_action : String
  subscription_number : Int
  protein_substitution : Option String
  allergies : Option String
  origin_order_name : Option String
deriving DecidableEq, Repr

/-- Normalized page info. -/
structure PageInfoOut where
  has_next_page : Bool
  end_cursor : Option String
deriving DecidableEq, Repr

/-- Result shape of `toSubscriptionsSummary`. -/
structure SubscriptionsSummary where
  subscriptions : List Subscription
  page_info : PageInfoOut
  active_subscription_count : Nat
  workflow_guidance : String
  next_step_guidance : NextStepGuidance
deriving DecidableEq, Repr

/-- Body of the `activeEdges.map((edge, index) => ...)` callback of
`toSubscriptionsSummary`; a `parseGidTail` failure is the thrown error. -/
def mkSubscription (index : Nat) (node : ContractNode) :
    Except String Subscription :=
  match parseGidTail node.id with
  | none => .error ("Invalid Shopify GID format: " ++ node.id)
  | some contractId =>
    let planName : String :=
      match node.deliveryPolicy with
      | some dp =>
        toString dp.intervalCount ++ " " ++ dp.interval ++
          (if dp.intervalCount > 1 then "s" else "")
      | none => "Subscription"
    let firstAttrs : List CustomAttribute :=
      match node.lines with
      | some (line0 :: _) => line0.customAttributes.getD []
      | _ => []
    let proteinSubstitution : Option String :=
      (firstAttrs.find? (fun attr => attr.key == "Protein Substitution")).map
        (fun attr => attr.value)
    let allergies : Option String :=
      (firstAttrs.find? (fun attr => attr.key == "Allergies")).map
        (fun attr => attr.value)
    let itemsSummary : String :=
      match node.lines with
      | some lines =>
        if lines.length ≠ 0 then
          let items := lines.map (fun line =>
            let title := jsStrOr line.variantTitle
              (jsStrOr line.productTitle "Item")
            if line.quantity > 1 then
              toString line.quantity ++ "x " ++ title
            else title)
          let base := String.intercalate ", " (items.take 3)
          let base :=
            if items.length > 3 then
              base ++ " +" ++ toString (items.length - 3) ++ " more"
            else base
          let prefs : List String :=
            (match jsStrOrUndefined proteinSubstitution with
             | some p => ["No " ++ p]
             | none => []) ++
            (match jsStrOrUndefined allergies with
             | some a => ["Allergies: " ++ a]
             | none => [])
          if prefs.length ≠ 0 then
            base ++ " | " ++ String.intercalate " | " prefs
          else base
        else ""
      | none => ""
    .ok
      { subscription_contract_id := contractId,
        subscription_contract_gid := node.id,
        status := node.status,
        plan_name := planName,
        next_billing_date := node.nextBillingDate,
        items_summary := jsStrOrUndefined (some itemsSummary),
        created_at := jsStrOrUndefined node.createdAt,
        can_skip_orders := true,
        upcoming_orders_count := 1,
        suggested_next_action :=
          "Call list_upcoming_orders with subscription_contract_id: " ++
            toString contractId ++
            " to see upcoming orders for this subscription",
        subscription_number := (index : Int) + 1,
        protein_substitution := proteinSubstitution,
        allergies := allergies,
        origin_order_name := jsStrOrUndefined node.originOrderName }

/-- `Array.prototype.map` under exception semantics: the first element
whose mapping throws aborts the whole map. -/
def mapME {α β ε : Type} (f : α → Except ε β) : List α → Except ε (List β)
  | [] => .ok []
  | x :: xs =>
    match f x with
    | .error e => .error e
    | .ok y =>
      match mapME f xs with
      | .error e => .error e
      | .ok ys => .ok (y :: ys)

/-- Pair each list element with its index starting at `i` (the
`(edge, index)` pair of the map callback). -/
def enumIdx {α : Type} (i : Nat) : List α → List (Nat × α)
  | [] => []
  | x :: xs => (i, x) :: enumIdx (i + 1) xs

/-- `toSubscriptionsSummary`: filters the upstream contracts down to the
`ACTIVE` ones, normalizes each, and attaches count-dependent workflow
guidance. -/
def toSubscriptionsSummary (appstle : SubscriptionCustomerResponse) :
    Except String SubscriptionsSummary :=
  match mapME (fun p => mkSubscription p.1 p.2)
      (enumIdx 0 (appstle.edges.filter (fun edge => edge.status == "ACTIVE"))) with
  | .error e => .error e
  | .ok subscriptions =>
    let activeCount := subscriptions.length
    let guidance : String × NextStepGuidance :=
      if activeCount = 0 then
        ("No active subscriptions found. Customer cannot skip orders.",
         { ask_customer := "You don\x27t have any active subscriptions to manage.",
           show_options := false,
           save_parameter := "none",
           next_tool := "none",
           condition := none })
      else if activeCount = 1 then
        let firstId :=
          ((subscriptions.head?.map
            (fun sub => sub.subscription_contract_id)).getD 0)
        ("Customer has 1 active subscription. To skip an order: call list_upcoming_orders with subscription_contract_id: " ++
           toString firstId ++
           ", then ask customer which order to skip, then call skip_order.",
         { ask_customer := "I found your subscription. Let me check your upcoming deliveries.",
           show_options := false,
           save_parameter := "subscription_contract_id",
           next_tool := "list_upcoming_orders",
           condition := some "SKIP_CUSTOMER_CHOICE" })
      else
        let subscriptionSummaries := String.intercalate "\n"
          (subscriptions.map (fun sub =>
            let prefs : List String :=
              (match jsStrOrUndefined sub.protein_substitution with
               | some p => ["No " ++ p]
               | none => []) ++
              (match jsStrOrUndefined sub.allergies with
               | some a => [a]
               | none => [])
            let prefStr :=
              if prefs.length ≠ 0 then
                " (" ++ String.intercalate ", " prefs ++ ")"
              else ""
            toString sub.subscription_number ++ ". Subscription ID " ++
              toString sub.subscription_contract_id ++ prefStr))
        ("Customer has " ++ toString activeCount ++
           " active subscriptions. Ask customer which subscription they want to skip orders for, then call list_upcoming_orders with the chosen subscription_contract_id.",
         { ask_customer := "Which subscription would you like to manage? Please select by number:\n\n" ++
             subscriptionSummaries ++
             "\n\nReply with the number (1, 2, 3, etc.) and I\x27ll check that subscription\x27s upcoming deliveries.",
           show_options := true,
           save_parameter := "subscription_contract_id",
           next_tool := "list_upcoming_orders",
           condition := some "WAIT_FOR_CUSTOMER_CHOICE" })
    .ok
      { subscriptions := subscriptions,
        page_info :=
          { has_next_page := appstle.pageInfo.hasNextPage,
            end_cursor := appstle.pageInfo.endCursor },
        active_subscription_count := activeCount,
        workflow_guidance := guidance.1,
        next_step_guidance := guidance.2 }

theorem mapME_length_mem {α β ε : Type} (f : α → Except ε β) :
    ∀ (l : List α) (ys : List β), mapME f l = .ok ys →
      ys.length = l.length ∧ ∀ y ∈ ys, ∃ x ∈ l, f x = .ok y := by
  intro l
  induction l with
  | nil =>
    intro ys h
    simp only [mapME] at h
    cases h
    simp
  | cons x xs ih =>
    intro ys h
    simp only [mapME] at h
    cases hfx : f x with
    | error e => rw [hfx] at h; cases h
    | ok y =>
      rw [hfx] at h
      cases hrec : mapME f xs with
      | error e => rw [hrec] at h; cases h
      | ok ys' =>
        rw [hrec] at h
        cases h
        obtain ⟨hlen, hmem⟩ := ih ys' hrec
        refine ⟨by simp [hlen], ?_⟩
        intro z hz
        rcases List.mem_cons.mp hz with hz | hz
        · exact ⟨x, List.mem_cons_self x xs, hz ▸ hfx⟩
        · obtain ⟨w, hw, hfw⟩ := hmem z hz
          exact ⟨w, List.mem_cons_of_mem x hw, hfw⟩

theorem enumIdx_length {α : Type} (i : Nat) (l : List α) :
    (enumIdx i l).length = l.length := by
  induction l generalizing i with
  | nil => simp [enumIdx]
  | cons x xs ih => simp [enumIdx, ih]

theorem enumIdx_mem_snd {α : Type} {p : Nat × α} :
    ∀ {i : Nat} {l : List α}, p ∈ enumIdx i l → p.2 ∈ l := by
  intro i l
  induction l generalizing i with
  | nil => intro h; simp [enumIdx] at h
  | cons x xs ih =>
    intro h
    rcases List.mem_cons.mp h with h | h
    · subst h; exact List.mem_cons_self x xs
    · exact List.mem_cons_of_mem x (ih h)

theorem mkSubscription_status (i : Nat) (node : ContractNode)
    (s : Subscription) (h : mkSubscription i node = .ok s) :
    s.status = node.status := by
  unfold mkSubscription at h
  cases hg : parseGidTail node.id with
  | none => rw [hg] at h; cases h
  | some cid =>
    rw [hg] at h
    cases h
    rfl

/-- Claim C10: the subscription-summary normalizer returns only contracts
whose status is exactly ACTIVE (one output entry per ACTIVE input edge,
all others omitted), and `active_subscription_count` equals the length of
the returned subscription list. -/
theorem subscriptions_summary_active_only (a : SubscriptionCustomerResponse)
    (r : SubscriptionsSummary) (h : toSubscriptionsSummary a = .ok r) :
    (∀ s ∈ r.subscriptions, s.status = "ACTIVE") ∧
    r.active_subscription_count = r.subscriptions.length ∧
    r.subscriptions.length =
      (a.edges.filter (fun e => e.status == "ACTIVE")).length := by
  unfold toSubscriptionsSummary at h
  cases hm : mapME (fun p => mkSubscription p.1 p.2)
      (enumIdx 0 (a.edges.filter (fun e => e.status == "ACTIVE"))) with
  | error e => rw [hm] at h; cases h
  | ok subs =>
    rw [hm] at h
    obtain ⟨hlen, hmem⟩ := mapME_length_mem _ _ _ hm
    have hrs : r.subscriptions = subs := by cases h; rfl
    have hrc : r.active_subscription_count = subs.length := by cases h; rfl
    refine ⟨?_, ?_, ?_⟩
    · intro s hs
      rw [hrs] at hs
      obtain ⟨p, hp, hok⟩ := hmem s hs
      have hnode : p.2 ∈ a.edges.filter (fun e => e.status == "ACTIVE") :=
        enumIdx_mem_snd hp
      have hstat := mkSubscription_status p.1 p.2 s hok
      have hact : (p.2.status == "ACTIVE") = true :=
        (List.mem_filter.mp hnode).2
      rw [hstat]
      exact eq_of_beq hact
    · rw [hrs, hrc]
    · rw [hrs, hlen, enumIdx_length]

/-- A concrete subscription-customer response: one ACTIVE contract and one
CANCELLED contract. -/
def exSubsInput : SubscriptionCustomerResponse :=
  { edges := [
      { id := "gid://shopify/SubscriptionContract/123",
        status := "ACTIVE",
        nextBillingDate := "2025-10-01T00:00:00Z",
        createdAt := none, deliveryPolicy := none, lines := none,
        originOrderName := none },
      { id := "gid://shopify/SubscriptionContract/456",
        status := "CANCELLED",
        nextBillingDate := "2025-11-01T00:00:00Z",
        createdAt := none, deliveryPolicy := none, lines := none,
        originOrderName := none } ],
    pageInfo := { hasNextPage := false, endCursor := none } }

/-- Whether an `Except` computation succeeded. -/
def isOkE {ε α : Type} : Except ε α → Bool
  | .ok _ => true
  | .error _ => false

theorem subscriptions_summary_active_only_witness :
    ∃ r, toSubscriptionsSummary exSubsInput = .ok r ∧
      (∀ s ∈ r.subscriptions, s.status = "ACTIVE") ∧
      r.active_subscription_count = r.subscriptions.length ∧
      r.subscriptions.length =
        (exSubsInput.edges.filter (fun e => e.status == "ACTIVE")).length := by
  cases hm : toSubscriptionsSummary exSubsInput with
  | error e =>
    have hok : isOkE (toSubscriptionsSummary exSubsInput) = true := by decide
    rw [hm] at hok
    simp [isOkE] at hok
  | ok r =>
    exact ⟨r, rfl, subscriptions_summary_active_only exSubsInput r hm⟩

/- ================ Tool invocation pipeline (tools.ts) ================ -/

/-- JSON values as delivered to a tool (numbers restricted to the
integers the tools traffic in). -/
inductive Json where
  | null
  | bool (b : Bool)
  | num (n : Int)
  | str (s : String)
  | arr (elems : List Json)
  | obj (fields : List (String × Json))

/-- One structured issue of a thrown ZodError: the failing field path and
the violated constraint. -/
structure ZodIssue where
  path : List String
  message : String
deriving DecidableEq, Repr

/-- Object field lookup. -/
def getField (fields : List (String × Json)) (k : String) : Option Json :=
  (fields.find? (fun f => f.1 == k)).map (fun f => f.2)

/-- Validated input of the list_upcoming_orders tool. -/
structure ListUpcomingOrdersInput where
  subscription_contract_id : Int
deriving DecidableEq, Repr

/-- Zod parse of `ListUpcomingOrdersInputSchema` (`z.object` with
`subscription_contract_id : z.number().int().positive()`). -/
def parseListUpcomingOrdersInput (j : Json) :
    Except (List ZodIssue) ListUpcomingOrdersInput :=
  match j with
  | .obj fields =>
    match getField fields "subscription_contract_id" with
    | none => .error [⟨["subscription_contract_id"], "Required"⟩]
    | some (.num n) =>
      if 0 < n then .ok ⟨n⟩
      else
        .error [⟨["subscription_contract_id"],
          "Number must be greater than 0"⟩]
    | some _ => .error [⟨["subscription_contract_id"], "Expected number"⟩]
  | _ => .error [⟨[], "Expected object"⟩]

/-- Failure channel of a wrapped tool call: the rethrown ZodError from
input validation, the handler's thrown error, or the rethrown ZodError
from output validation. -/
inductive ToolError (ε : Type) where
  | validationError (issues : List ZodIssue)
  | handlerError (e : ε)
  | outputValidationError (issues : List ZodIssue)

/-- Observable outcome of one wrapped tool call: the result and whether
the registered handler ran. -/
structure ToolInvocation (ε β : Type) where
  result : Except (ToolError ε) β
  handlerInvoked : Bool

/-- `createTool`: input validation, then the handler, then output
validation; a validation throw propagates after being logged. -/
def createTool {α β ε : Type}
    (inputSchemaParse : Json → Except (List ZodIssue) α)
    (outputSchemaParse : β → Except (List ZodIssue) β)
    (handler : α → Except ε β) (input : Json) : ToolInvocation ε β :=
  match inputSchemaParse input with
  | .error issues => ⟨.error (.validationError issues), false⟩
  | .ok validatedInput =>
    match handler validatedInput with
    | .error e => ⟨.error (.handlerError e), true⟩
    | .ok result =>
      match outputSchemaParse result with
      | .error issues => ⟨.error (.outputValidationError issues), true⟩
      | .ok validatedOutput => ⟨.ok validatedOutput, true⟩

/-- Claim C6: raw arguments that fail the tool's input schema make the
pipeline report the structured validation issues (field path plus
constraint violated, never a bare exception), and the registered handler
is never invoked, so no upstream call is made. -/
theorem invalid_input_short_circuits {β ε : Type}
    (outputSchemaParse : β → Except (List ZodIssue) β)
    (handler : ListUpcomingOrdersInput → Except ε β)
    (input : Json) (issues : List ZodIssue)
    (hfail : parseListUpcomingOrdersInput input = .error issues) :
    createTool parseListUpcomingOrdersInput outputSchemaParse handler input =
      ⟨.error (.validationError issues), false⟩ := by
  simp [createTool, hfail]

theorem invalid_input_short_circuits_witness :
    createTool parseListUpcomingOrdersInput
        (fun b => Except.ok b)
        (fun i => (Except.ok i : Except Unit ListUpcomingOrdersInput))
        (Json.obj []) =
      ⟨.error (.validationError
        [⟨["subscription_contract_id"], "Required"⟩]), false⟩ :=
  invalid_input_short_circuits (fun b => Except.ok b)
    (fun i => Except.ok i) (Json.obj [])
    [⟨["subscription_contract_id"], "Required"⟩] rfl

/-- Validated input of the unskip_order tool. -/
structure UnskipOrderInput where
  order_id : Int
  subscription_contract_id : Option Int
deriving DecidableEq, Repr

/-- The temporary `_debug_api_call` diagnostic object the unskip_order
handler currently returns on success (constant header fields and
reflection-only key lists elided). -/
structure UnskipDebugDump where
  url : String
  full_url_path : String
  query_subscription_contract_id : Option Int
  input_order_id : Int
  input_subscription_contract_id : Option Int
  raw_response : RawSkipResponse
deriving DecidableEq, Repr

/-- Success value of the unskip_order handler: either the temporary
diagnostic dump or the documented normalized skip-response mapping. -/
inductive UnskipToolSuccess where
  | debugDump (d : UnskipDebugDump)
  | normalized (r : SkipResult)
deriving DecidableEq, Repr

/-- Success path of the `unskipOrder` handler as written in tools.ts: the
early `return` of the `_debug_api_call` object makes the
`mapSkipResponse(appstle, false)` normalization below it dead code. -/
def unskipOrderSuccessPath (input : UnskipOrderInput)
    (appstle : RawSkipResponse) : UnskipToolSuccess :=
  .debugDump
    { url :=
        "PUT /api/external/v2/subscription-billing-attempts/unskip-order/" ++
          toString input.order_id,
      full_url_path :=
        "/api/external/v2/subscription-billing-attempts/unskip-order/" ++
          toString input.order_id,
      query_subscription_contract_id :=
        jsIntOrUndefined input.subscription_contract_id,
      input_order_id := input.order_id,
      input_subscription_contract_id := input.subscription_contract_id,
      raw_response := appstle }

/-- A concrete validated unskip_order input. -/
def exUnskipInput : UnskipOrderInput :=
  { order_id := 7700, subscription_contract_id := none }

/-- A concrete successful upstream unskip response. -/
def exUnskipResponse : RawSkipResponse :=
  { id := 7700, billingAttemptId := none, orderId := none, orderName := none,
    billingDate := "2025-10-01T00:00:00Z", status := "QUEUED" }

/-- Claim C5 (defect evidence): at a concrete successful unskip call the
handler's success path returns the raw diagnostic dump and not the
documented normalized skip-response mapping (isSkip = false). -/
theorem unskip_returns_debug_dump_not_normalized :
    (∃ d, unskipOrderSuccessPath exUnskipInput exUnskipResponse =
      .debugDump d) ∧
    ∀ r : SkipResult,
      unskipOrderSuccessPath exUnskipInput exUnskipResponse ≠
        .normalized r := by
  refine ⟨⟨_, rfl⟩, ?_⟩
  intro r h
  simp [unskipOrderSuccessPath] at h

/- ================= JSON-RPC dispatcher (transport.ts) ================= -/

/-- A JSON-RPC id: a string or a number (an absent id is `Option.none`
at the use sites). -/
inductive RpcId where
  | str (s : String)
  | num (n : Int)
deriving DecidableEq, Repr

/-- The `params` object of tools/call: `params.name` and
`params.arguments`, each possibly absent. -/
structure ToolCallParams where
  name : Option String
  arguments : Option Json

/-- An incoming JSON-RPC envelope after JSON parsing: every field may be
absent. -/
structure Envelope where
  jsonrpc : Option String
  id : Option RpcId
  method : Option String
  params : Option ToolCallParams

/-- Result payload of a successful dispatcher response: the static
initialize payload, the static tool-definition list, or the tools/call
content envelope (a single text block carrying the serialized result). -/
inductive ResultPayload where
  | initializeResult
  | toolsList
  | content (result : Json)

/-- Outcome half of a JSON-RPC response. -/
inductive RpcOutcome where
  | ok (payload : ResultPayload)
  | err (code : Int) (message : String) (data : Option String)

/-- A JSON-RPC response entry; `id = none` models both an absent and a
null id on the wire. -/
structure RpcResponse where
  id : Option RpcId
  outcome : RpcOutcome

/-- A registered tool function as the transport sees it
(`this.tools[name]`): raw arguments in, result or thrown error out. -/
def ToolFn : Type := Json → Except String Json

/-- Registry lookup `this.tools[params.name]`. -/
def lookupTool (tools : List (String × ToolFn)) (name : String) :
    Option ToolFn :=
  (tools.find? (fun p => p.1 == name)).map (fun p => p.2)

/-- `isValidJsonRpcRequest`: the object carries `jsonrpc: "2.0"` and a
string-typed `method`. -/
def isValidJsonRpcRequest (e : Envelope) : Bool :=
  e.jsonrpc == some "2.0" && e.method.isSome

/-- `handleToolsCall`, instrumented with the name of the tool handler it
invoked (`none` when no handler ran). -/
def handleToolsCall (tools : List (String × ToolFn)) (req : Envelope) :
    RpcResponse × Option String :=
  match (match req.params with
         | some p => jsStrOrUndefined p.name
         | none => none) with
  | none =>
    ({ id := req.id,
       outcome := .err (-32602) "Invalid params"
         (some "Tool name is required") },
     none)
  | some name =>
    match lookupTool tools name with
    | none =>
      ({ id := req.id,
         outcome := .err (-32601) "Method not found"
           (some ("Tool \x27" ++ name ++ "\x27 not found")) },
       none)
    | some toolFunction =>
      match toolFunction ((match req.params with
                           | some p => p.arguments
                           | none => none).getD (Json.obj [])) with
      | .ok result =>
        ({ id := req.id, outcome := .ok (.content result) }, some name)
      | .error msg =>
        ({ id := req.id,
           outcome := .err (-32603) "Internal error" (some msg) },
         some name)

/-- `processJsonRpcRequest`, instrumented like `handleToolsCall`.  A
`none` first component models returning no response entry (the
notification case). -/
def processJsonRpcRequest (tools : List (String × ToolFn)) (e : Envelope) :
    Option RpcResponse × Option String :=
  if isValidJsonRpcRequest e then
    match e.method with
    | some m =>
      if m = "initialize" then
        (some { id := e.id, outcome := .ok .initializeResult }, none)
      else if m = "tools/list" then
        (some { id := e.id, outcome := .ok .toolsList }, none)
      else if m = "tools/call" then
        let r := handleToolsCall tools e
        (some r.1, r.2)
      else if m = "notifications/initialized" then
        (none, none)
      else
        (some { id := e.id,
                outcome := .err (-32601) "Method not found"
                  (some ("Method \x27" ++ m ++ "\x27 is not supported")) },
         none)
    | none =>
      (some { id := none,
              outcome := .err (-32600) "Invalid Request"
                (some "Request must be a valid JSON-RPC 2.0 object") },
       none)
  else
    (some { id := none,
            outcome := .err (-32600) "Invalid Request"
              (some "Request must be a valid JSON-RPC 2.0 object") },
     none)

/-- A valid envelope with an unrecognized method and no id. -/
def exNotificationUnknown : Envelope :=
  { jsonrpc := some "2.0", id := none, method := some "unknown/method",
    params := none }

/-- The response entry the dispatcher produces for
`exNotificationUnknown`. -/
def exUnknownMethodResponse : RpcResponse :=
  { id := none,
    outcome := .err (-32601) "Method not found"
      (some "Method \x27unknown/method\x27 is not supported") }

/-- Claim C3 is false on the code: an envelope lacking an id whose method
is unrecognized is not dropped silently; processing yields a -32601 error
response entry. -/
theorem notification_unknown_method_not_dropped :
    (processJsonRpcRequest [] exNotificationUnknown).1 ≠ none ∧
    (processJsonRpcRequest [] exNotificationUnknown).1 =
      some exUnknownMethodResponse := by
  have hsome : (processJsonRpcRequest [] exNotificationUnknown).1 =
      some exUnknownMethodResponse := rfl
  exact ⟨fun h => Option.noConfusion (hsome.symm.trans h), hsome⟩

/-- Claim C3 (amended): only the method notifications/initialized is
treated as a notification (no response entry, registry irrelevant);
every other valid envelope — with or without an id — still produces a
response entry, and an unrecognized method in particular yields a -32601
error entry even when the id is absent. -/
theorem only_initialized_notification_dropped
    (tools : List (String × ToolFn)) (e : Envelope)
    (hv : e.jsonrpc = some "2.0") :
    (e.method = some "notifications/initialized" →
      (processJsonRpcRequest tools e).1 = none) ∧
    (∀ m, e.method = some m → m ≠ "notifications/initialized" →
      (processJsonRpcRequest tools e).1 ≠ none) := by
  constructor
  · intro hm
    simp [processJsonRpcRequest, isValidJsonRpcRequest, hv, hm]
  · intro m hm hne
    simp only [processJsonRpcRequest, isValidJsonRpcRequest, hv, hm]
    by_cases h1 : m = "initialize"
    · simp [h1]
    by_cases h2 : m = "tools/list"
    · simp [h1, h2]
    by_cases h3 : m = "tools/call"
    · simp [h1, h2, h3]
    · simp [h1, h2, h3, hne]

/-- A valid notifications/initialized envelope with no id. -/
def exInitializedNotification : Envelope :=
  { jsonrpc := some "2.0", id := none,
    method := some "notifications/initialized", params := none }

theorem only_initialized_notification_dropped_witness :
    (processJsonRpcRequest [] exInitializedNotification).1 = none ∧
    (processJsonRpcRequest [] exNotificationUnknown).1 ≠ none :=
  ⟨(only_initialized_notification_dropped [] exInitializedNotification
      rfl).1 rfl,
   (only_initialized_notification_dropped [] exNotificationUnknown
      rfl).2 "unknown/method" rfl (by decide)⟩

/-- Claim C9: a tools/call request whose `params.name` is not a key of
the tool registry yields a -32601 Method-not-found error whose data names
the unresolved tool, and no tool handler is invoked. -/
theorem unknown_tool_not_found (tools : List (String × ToolFn))
    (e : Envelope) (name : String) (p : ToolCallParams)
    (hp : e.params = some p) (hn : p.name = some name) (hne : name ≠ "")
    (hlookup : lookupTool tools name = none) :
    handleToolsCall tools e =
      ({ id := e.id,
         outcome := .err (-32601) "Method not found"
           (some ("Tool \x27" ++ name ++ "\x27 not found")) },
       none) := by
  simp [handleToolsCall, hp, hn, jsStrOrUndefined, hne, hlookup]

/-- A concrete tools/call envelope naming an unregistered tool. -/
def exToolsCallUnknown : Envelope :=
  { jsonrpc := some "2.0", id := some (.num 1), method := some "tools/call",
    params := some { name := some "nonexistent_tool", arguments := none } }

theorem unknown_tool_not_found_witness :
    handleToolsCall [] exToolsCallUnknown =
      ({ id := some (.num 1),
         outcome := .err (-32601) "Method not found"
           (some "Tool \x27nonexistent_tool\x27 not found") },
       none) :=
  unknown_tool_not_found [] exToolsCallUnknown "nonexistent_tool"
    { name := some "nonexistent_tool", arguments := none } rfl rfl
    (by decide) rfl
